import Mathlib

/-!
Verification development for the hackney-status vehicle status server.

The repository contains four variants of the same server (src/server.js and
three unnamed historical variants, called Part000, Part001 and Part002 below,
for src/unnamed/part_000, part_001 and part_002).  Each namespace embeds the
per-record logic of one variant.

Modelling conventions, used uniformly:
* Timestamps are natural numbers (milliseconds).  A field holding an ISO
  timestamp string is `Option Nat`, where `none` stands for a JavaScript
  null / undefined / empty value.  Present timestamps are assumed parseable
  (the `Number.isFinite` guards of the source never fire in the model).
* JavaScript nullish coalescing `a ?? b` is `jsNullish a b`; the falsy-based
  `a || b` on strings is `jsOrStr a b` (the empty string is falsy).
* Webhook handlers are modelled per callsign: each handler body is a merge
  function from the existing record (absent records are the empty object,
  i.e. the record with all fields `none` / defaults) and the fields the
  handler reads from the event, to the stored record.  The resolution of a
  timestamp or status out of several aliased payload fields (`a || b || c`
  chains over event fields) is passed in already resolved where the chain is
  irrelevant to the claims.
-/

/-- JavaScript nullish coalescing `a ?? b`: keeps `a` unless it is
null / undefined. -/
def jsNullish {α : Type} (a b : Option α) : Option α :=
  match a with
  | some x => some x
  | none => b

/-- JavaScript `a || b` on nullable strings: the empty string is falsy and
falls through to `b`. -/
def jsOrStr (a b : Option String) : Option String :=
  match a with
  | some s => if s = "" then b else some s
  | none => b

/-- JavaScript truthiness of a nullable string: false for null / undefined
and for the empty string. -/
def truthyStr : Option String → Bool
  | none => false
  | some s => if s = "" then false else true

/-- `String.toLowerCase()` (ASCII, as used by the source's status tokens). -/
def strLower (s : String) : String := String.mk (s.toList.map Char.toLower)

/-- `String.trim()`. -/
def strTrim (s : String) : String :=
  String.mk (((s.toList.dropWhile Char.isWhitespace).reverse.dropWhile Char.isWhitespace).reverse)

/-- `String.includes(pat)`: substring occurrence. -/
def strContains (s pat : String) : Bool := go s.toList
where
  go : List Char → Bool
    | [] => pat.toList.isPrefixOf ([] : List Char)
    | c :: rest => pat.toList.isPrefixOf (c :: rest) || go rest

/-- `String.startsWith(pat)`. -/
def strStartsWith (s pat : String) : Bool := pat.toList.isPrefixOf s.toList

/-- Result of a webhook handler: a JSON success response carrying the update
count, or the 401 Unauthorized rejection. -/
inductive WebhookResp where
  | ok (updates : Nat)
  | unauthorized
deriving DecidableEq

/-- The optional array-wrapper fields a webhook body object may carry
(`data`, `items`, `VehicleTracks`, `Shifts`, `Events`, `payload`). -/
structure WrapFields (α : Type) where
  data : Option (List α) := none
  items : Option (List α) := none
  vehicleTracks : Option (List α) := none
  shifts : Option (List α) := none
  events : Option (List α) := none
  payload : Option (List α) := none
deriving DecidableEq

/-- Shape of an incoming webhook body handed to `coercePayloadToArray`:
null / undefined, the empty string, a JSON array of event items, or an
object (with its wrapper fields and its own reading as a single event). -/
inductive Body (α : Type) where
  | nullBody
  | emptyStrBody
  | arrBody (xs : List α)
  | objBody (w : WrapFields α) (self : α)

namespace ServerJs

/-- One status record of src/server.js (see the comment at src/server.js:32):
lastPingAt, updatedAt, driverStatus, explicitOnline. -/
structure Rec where
  lastPingAt : Option Nat := none
  updatedAt : Option Nat := none
  driverStatus : Option String := none
  explicitOnline : Option Bool := none
deriving DecidableEq, Inhabited

/-- src/server.js:84-99 `computeOnline`: explicit false wins, then missing or
stale ping means offline, otherwise online. -/
def computeOnline (rec : Option Rec) (now timeoutMs : Nat) : Bool :=
  match rec with
  | none => false
  | some r =>
    if r.explicitOnline = some false then false
    else
      match r.lastPingAt with
      | none => false
      | some t =>
        if now - t > timeoutMs then false
        else if r.explicitOnline = some true then true
        else true

/-- src/server.js:137-152 `mapVehicleStatus`: VehicleStatus to friendly text. -/
def mapVehicleStatus (raw : Option String) : Option String :=
  match raw with
  | none => none
  | some rawS =>
    if rawS = "" then none
    else
      let s := strTrim rawS
      let lower := strLower s
      if strStartsWith lower "busy" then
        if strContains lower "account" then some "Busy (Account)"
        else if strContains lower "cash" then some "Busy (Cash)"
        else some "Busy"
      else if strContains lower "clear" || strContains lower "free" then some "Clear"
      else some s

/-- src/server.js:155-179 `inferOnlineFromShift(statusText, subType, eventType)`:
keyword-based explicit online / offline inference for shift events. -/
def inferOnlineFromShift (statusText subType eventType : Option String) : Option Bool :=
  let s := strLower (statusText.getD "")
  let sub := strLower (subType.getD "")
  let evt := strLower (eventType.getD "")
  if strContains s "start" || strContains s "on" || strContains s "open" ||
      strContains s "logged in" || strContains s "loggedon" || strContains s "signed on" ||
      sub = "started" || strContains evt "shiftstart" then
    some true
  else if strContains s "end" || strContains s "off" || strContains s "closed" ||
      strContains s "logged out" || strContains s "loggedoff" || strContains s "signed off" ||
      sub = "ended" || strContains evt "shiftend" then
    some false
  else
    none

/-- src/server.js:258-265, body of the HackneyLocation handler loop: merge a
location ping with resolved timestamp `ts` into the existing record.  There is
no timestamp gate in this variant; the merge is applied unconditionally. -/
def hackneyMerge (ex : Rec) (ts : Nat) : Rec :=
  { ex with
    lastPingAt := some ts
    updatedAt := some ts
    explicitOnline := jsNullish ex.explicitOnline (some true) }

/-- Per-callsign effect of the src/server.js HackneyLocation handler: absent
records start as the empty object. -/
def hackneyApply (ts : Nat) (r : Option Rec) : Option Rec :=
  some (hackneyMerge (r.getD {}) ts)

/-- src/server.js:317-327, body of the Status (VehicleTracksChanged) handler
loop: the track is a ping, sets the pretty label, and forces
`explicitOnline = true`. -/
def statusMerge (ex : Rec) (ts : Nat) (rawStatus : Option String) : Rec :=
  let pretty := mapVehicleStatus rawStatus
  { ex with
    lastPingAt := some ts
    updatedAt := some ts
    driverStatus := jsNullish pretty (jsNullish ex.driverStatus none)
    explicitOnline := some true }

/-- Per-callsign effect of the src/server.js Status handler. -/
def statusApply (ts : Nat) (rawStatus : Option String) (r : Option Rec) : Option Rec :=
  some (statusMerge (r.getD {}) ts rawStatus)

/-- src/server.js:385-394, body of the ShiftChange handler loop: treat the
event as activity (`lastPingAt := ts` unconditionally), update the status
text, and override `explicitOnline` only when the inference resolved. -/
def shiftMerge (ex : Rec) (ts : Nat) (rawStatus eventType subType : Option String) : Rec :=
  let explicit := inferOnlineFromShift rawStatus subType eventType
  { ex with
    lastPingAt := some ts
    updatedAt := some ts
    driverStatus := jsOrStr
      (match rawStatus with
        | some s => if s = "" then ex.driverStatus else some s
        | none => ex.driverStatus) none
    explicitOnline :=
      match explicit with
      | some b => some b
      | none => jsNullish ex.explicitOnline none }

/-- Per-callsign effect of the src/server.js ShiftChange handler. -/
def shiftApply (ts : Nat) (rawStatus eventType subType : Option String)
    (r : Option Rec) : Option Rec :=
  some (shiftMerge (r.getD {}) ts rawStatus eventType subType)

/-- src/server.js:230-238 `checkWebhookAuth`: with no configured token every
request passes; otherwise the x-webhook-token header must equal the token. -/
def checkWebhookAuth (token : String) (header : Option String) : Bool :=
  if token = "" then true
  else if header = some token then true
  else false

/-- Shape shared by the three src/server.js webhook endpoints: run
`checkWebhookAuth` first and return 401 without touching the state on
failure, otherwise run the handler body `process` on the state and answer
with the update count. -/
def handleWebhook {σ : Type} (token : String) (header : Option String)
    (process : σ → σ × Nat) (st : σ) : WebhookResp × σ :=
  if checkWebhookAuth token header then
    let out := process st
    (WebhookResp.ok out.2, out.1)
  else
    (WebhookResp.unauthorized, st)

/-- Nested Driver / Vehicle sub-object probed for a callsign
(src/server.js:114-121). -/
structure CsSub where
  Callsign : Option String := none
  callsign : Option String := none
  callSign : Option String := none
deriving DecidableEq, Inhabited

/-- The callsign-bearing fields of an event object
(src/server.js:101-122). -/
structure CsFields where
  callsign : Option String := none
  callSign : Option String := none
  code : Option String := none
  mdtId : Option String := none
  mdtID : Option String := none
  vehicleCode : Option String := none
  driverCode : Option String := none
  Driver : Option CsSub := none
  driver : Option CsSub := none
  Vehicle : Option CsSub := none
  vehicle : Option CsSub := none
deriving DecidableEq, Inhabited

/-- src/server.js:101-122 `extractCallsignGeneric`: direct aliases first
(kept only when truthy), then the nested driver / vehicle sub-objects. -/
def extractCallsignGeneric (o : CsFields) : Option String :=
  let direct := jsNullish o.callsign (jsNullish o.callSign (jsNullish o.code
    (jsNullish o.mdtId (jsNullish o.mdtID (jsNullish o.vehicleCode
      (jsNullish o.driverCode none))))))
  if truthyStr direct then direct
  else
    let d := (jsNullish o.Driver (jsNullish o.driver none)).getD {}
    let v := (jsNullish o.Vehicle (jsNullish o.vehicle none)).getD {}
    jsNullish d.Callsign (jsNullish d.callsign (jsNullish d.callSign
      (jsNullish v.Callsign (jsNullish v.callsign (jsNullish v.callSign none)))))

/-- src/server.js:125-134 `coercePayloadToArray`: `body || empty-object`, then
the array checks in source order (`data`, `items`, `VehicleTracks`, `Shifts`,
`Events`), else the body itself as a one-element list.  A null or empty body
becomes the empty object, hence a one-element list holding it. -/
def coercePayloadToArray {α : Type} [Inhabited α] : Body α → List α
  | .nullBody => [default]
  | .emptyStrBody => [default]
  | .arrBody xs => xs
  | .objBody w self =>
    match w.data with
    | some xs => xs
    | none =>
      match w.items with
      | some xs => xs
      | none =>
        match w.vehicleTracks with
        | some xs => xs
        | none =>
          match w.shifts with
          | some xs => xs
          | none =>
            match w.events with
            | some xs => xs
            | none => [self]

/-- Update count of the src/server.js HackneyLocation handler on a body: an
item produces an update exactly when its extracted callsign is truthy
(src/server.js:249-268). -/
def hackneyUpdates (b : Body CsFields) : Nat :=
  ((coercePayloadToArray b).filter (fun i => truthyStr (extractCallsignGeneric i))).length

/-- One row of the read / broadcast surface:
callsign, derived online, updatedAt, driverStatus. -/
structure Entry where
  callsign : String
  online : Bool
  updatedAt : Option Nat
  driverStatus : Option String
deriving DecidableEq

/-- src/server.js:420-425, the /api/status projection of one record. -/
def apiStatusEntry (k : String) (r : Rec) (now timeoutMs : Nat) : Entry :=
  { callsign := k
    online := computeOnline (some r) now timeoutMs
    updatedAt := jsNullish r.updatedAt none
    driverStatus := jsOrStr r.driverStatus none }

/-- src/server.js:193-198, one record of the SSE connection snapshot. -/
def snapshotEntry (k : String) (r : Rec) (now timeoutMs : Nat) : Entry :=
  { callsign := k
    online := computeOnline (some r) now timeoutMs
    updatedAt := jsNullish r.updatedAt none
    driverStatus := jsOrStr r.driverStatus none }

/-- src/server.js:216-222, the payload broadcast by `sseBroadcastUpdate`. -/
def ssePayload (k : String) (r : Rec) (now timeoutMs : Nat) : Entry :=
  { callsign := k
    online := computeOnline (some r) now timeoutMs
    updatedAt := jsNullish r.updatedAt none
    driverStatus := jsOrStr r.driverStatus none }

end ServerJs

namespace SpecModel

/-- The layered `computeOnline(record, now, timeoutDuration)` exactly as the
specification states it in section 4.3, written from the words of the spec to
be compared with the source embeddings. -/
def layeredComputeOnline (r : ServerJs.Rec) (now timeoutMs : Nat) : Bool :=
  if r.explicitOnline = some false then false
  else
    match r.lastPingAt with
    | none => false
    | some t => if now - t > timeoutMs then false else true

end SpecModel

namespace Part000

/-- One status record of src/unnamed/part_000 (see the comment at its
line 31): the label / code split plus the backwards-compatible
driverStatus alias. -/
structure Rec0 where
  lastPingAt : Option Nat := none
  updatedAt : Option Nat := none
  driverStatusCode : Option String := none
  driverStatusLabel : Option String := none
  driverStatus : Option String := none
  explicitOnline : Option Bool := none
deriving DecidableEq, Inhabited

/-- src/unnamed/part_000:96-104 `isNewerTimestamp`: an unparseable or absent
incoming stamp is never newer; anything is newer than an absent stored stamp;
otherwise compare, accepting equality. -/
def isNewerTimestamp (incoming existing : Option Nat) : Bool :=
  match incoming with
  | none => false
  | some i =>
    match existing with
    | none => true
    | some e => decide (e ≤ i)

/-- src/unnamed/part_000:113-149 `computeOnline`: a NotWorking code or an
off-shift-flavoured label always means offline, otherwise the record must
have `explicitOnline = true`, and a present stale ping forces offline. -/
def computeOnline (rec : Option Rec0) (now timeoutMs : Nat) : Bool :=
  match rec with
  | none => false
  | some r =>
    let code := r.driverStatusCode.getD ""
    let statusLower := strLower ((jsOrStr r.driverStatusLabel (jsOrStr r.driverStatus none)).getD "")
    if code = "NotWorking" || strContains statusLower "not working" ||
        strContains statusLower "off shift" || strContains statusLower "off-duty" ||
        strContains statusLower "off duty" || strContains statusLower "logged off" ||
        strContains statusLower "signed off" || strContains statusLower "not on shift" then
      false
    else if !(r.explicitOnline = some true) then false
    else
      match r.lastPingAt with
      | some t => if now - t > timeoutMs then false else true
      | none => true

/-- src/unnamed/part_000:187-212 `vehicleStatusLabel`: raw VehicleStatus code
to friendly label. -/
def vehicleStatusLabel (raw : Option String) : Option String :=
  match raw with
  | none => none
  | some rawS =>
    if rawS = "" then none
    else
      let s := strTrim rawS
      if rawS = "Clear" then some "Clear"
      else if rawS = "BusyMeterOff" || rawS = "BusyMeterOffAccount" then some "Dispatched"
      else if rawS = "BusyMeterOnFromMeterOffCash" || rawS = "BusyMeterOnFromMeterOffAccount" then
        some "Picked up"
      else if rawS = "BusyMeterOnFromClear" then some "Street Booking"
      else if rawS = "JobOffered" then some "Offering Job"
      else if strStartsWith (strLower s) "busy" then some "Busy"
      else some s

/-- src/unnamed/part_000:215-260 `shiftStatusLabel`.  The boolean
`IsOnShift` / `OnShift` / `onShift` probe of the item is passed in already
resolved as `onShift`. -/
def shiftStatusLabel (rawStatus eventType subType : Option String)
    (onShift : Option Bool) : Option String :=
  let s := strLower (rawStatus.getD "")
  let evt := strLower (eventType.getD "")
  let sub := strLower (subType.getD "")
  match onShift with
  | some true => some "On Shift"
  | some false => some "Off Shift"
  | none =>
    if strContains s "break" then some "On Break"
    else if strContains s "start" || strContains s "on shift" || strContains s "logged in" ||
        strContains s "loggedon" || strContains s "signed on" || strContains evt "shiftstart" ||
        sub = "started" then
      some "On Shift"
    else if strContains s "end" || strContains s "off shift" || strContains s "logged out" ||
        strContains s "loggedoff" || strContains s "signed off" ||
        (strContains s "off" && !(strContains s "offline status ignored")) ||
        strContains evt "shiftend" || sub = "ended" then
      some "Off Shift"
    else if truthyStr rawStatus then rawStatus
    else if !(evt = "") then some ("Shift: " ++ eventType.getD "")
    else if !(sub = "") then some ("Shift: " ++ subType.getD "")
    else none

/-- src/unnamed/part_000:263-297 `inferExplicitOnlineFromShift`: the resolved
on-shift boolean wins, then online keywords, then offline keywords. -/
def inferExplicitOnlineFromShift (rawStatus eventType subType : Option String)
    (onShift : Option Bool) : Option Bool :=
  let s := strLower (rawStatus.getD "")
  let evt := strLower (eventType.getD "")
  let sub := strLower (subType.getD "")
  match onShift with
  | some b => some b
  | none =>
    if strContains s "start" || strContains s "on shift" || strContains s "logged in" ||
        strContains s "loggedon" || strContains s "signed on" || strContains evt "shiftstart" ||
        sub = "started" then
      some true
    else if strContains s "end" || strContains s "off shift" || strContains s "logged out" ||
        strContains s "loggedoff" || strContains s "signed off" ||
        (strContains s "off" && !(strContains s "offline status ignored")) ||
        strContains evt "shiftend" || sub = "ended" then
      some false
    else
      none

/-- src/unnamed/part_000:525-546: the explicit state a ShiftChange event
resolves to, including the label-based fallback applied when the keyword
inference came back null. -/
def resolveShiftExplicit (rawStatus eventType subType : Option String)
    (onShift : Option Bool) : Option Bool :=
  let label := shiftStatusLabel rawStatus eventType subType onShift
  match inferExplicitOnlineFromShift rawStatus eventType subType onShift with
  | some b => some b
  | none =>
    match label with
    | none => none
    | some lab =>
      if lab = "" then none
      else
        let l := strLower lab
        if strContains l "off shift" || strContains l "off duty" || strContains l "logged off" ||
            strContains l "signed off" then
          some false
        else if strContains l "on shift" || strContains l "on duty" || strContains l "logged on" ||
            strContains l "logged in" || strContains l "signed on" then
          some true
        else
          none

/-- src/unnamed/part_000:380-393, the accepted-case merge of a
HackneyLocation ping: a ping marks the vehicle working unless it is already
explicitly off. -/
def locMerge (ex : Rec0) (ts : Nat) : Rec0 :=
  let eo :=
    match ex.explicitOnline with
    | none => some true
    | some b => some b
  { ex with lastPingAt := some ts, updatedAt := some ts, explicitOnline := eo }

/-- src/unnamed/part_000:453-461, the accepted-case merge of a Status
(VehicleTracks) event: keep an older ping if present, set code and label,
force `explicitOnline = true`. -/
def statusMergeRec (ex : Rec0) (ts : Nat) (rawCode : Option String) : Rec0 :=
  let label := vehicleStatusLabel rawCode
  let newLabel := jsNullish label (jsNullish ex.driverStatusLabel (jsNullish rawCode none))
  { ex with
    lastPingAt := jsNullish ex.lastPingAt (some ts)
    updatedAt := some ts
    driverStatusCode := jsOrStr rawCode (jsOrStr ex.driverStatusCode none)
    driverStatusLabel := newLabel
    driverStatus := newLabel
    explicitOnline := some true }

/-- src/unnamed/part_000:555-571, the accepted-case merge of a ShiftChange
event: a resolved online refreshes `lastPingAt` to the event timestamp, a
resolved offline clears it, an unresolved event leaves it alone. -/
def shiftMergeRec (ex : Rec0) (ts : Nat) (rawStatus eventType subType : Option String)
    (onShift : Option Bool) : Rec0 :=
  let label := shiftStatusLabel rawStatus eventType subType onShift
  let explicit := resolveShiftExplicit rawStatus eventType subType onShift
  let newLabel := jsNullish label (jsNullish ex.driverStatusLabel (jsNullish ex.driverStatus none))
  let base : Rec0 :=
    { ex with
      updatedAt := some ts
      lastPingAt := jsNullish ex.lastPingAt none
      driverStatusLabel := newLabel
      driverStatusCode := jsNullish ex.driverStatusCode none
      explicitOnline := jsNullish ex.explicitOnline none
      driverStatus := newLabel }
  match explicit with
  | some true => { base with explicitOnline := some true, lastPingAt := some ts }
  | some false => { base with explicitOnline := some false, lastPingAt := none }
  | none => base

/-- A webhook event of src/unnamed/part_000 for one callsign, with its
resolved timestamp and the status fields the handler reads. -/
inductive Evt where
  | loc (ts : Nat)
  | track (ts : Nat) (rawCode : Option String)
  | shiftEvt (ts : Nat) (rawStatus eventType subType : Option String) (onShift : Option Bool)
deriving DecidableEq

/-- The resolved timestamp an event carries. -/
def evtTs : Evt → Nat
  | .loc ts => ts
  | .track ts _ => ts
  | .shiftEvt ts _ _ _ _ => ts

/-- Per-callsign effect of the three src/unnamed/part_000 webhook handlers,
including their timestamp gates: the location handler gates on
`updatedAt || lastPingAt || null` (line 376), the other two on
`updatedAt || null` (lines 449 and 551); a rejected event leaves the stored
record untouched. -/
def applyEvent (e : Evt) (r : Option Rec0) : Option Rec0 :=
  let ex := r.getD {}
  match e with
  | .loc ts =>
    if isNewerTimestamp (some ts) (jsNullish ex.updatedAt (jsNullish ex.lastPingAt none)) then
      some (locMerge ex ts)
    else r
  | .track ts rawCode =>
    if isNewerTimestamp (some ts) (jsNullish ex.updatedAt none) then
      some (statusMergeRec ex ts rawCode)
    else r
  | .shiftEvt ts rawStatus eventType subType onShift =>
    if isNewerTimestamp (some ts) (jsNullish ex.updatedAt none) then
      some (shiftMergeRec ex ts rawStatus eventType subType onShift)
    else r

/-- The stored-timestamp reference the gate of each part_000 handler compares
the incoming timestamp against (split out of `applyEvent` for reasoning). -/
def gateRef (e : Evt) (ex : Rec0) : Option Nat :=
  match e with
  | .loc _ => jsNullish ex.updatedAt (jsNullish ex.lastPingAt none)
  | .track _ _ => jsNullish ex.updatedAt none
  | .shiftEvt _ _ _ _ _ => jsNullish ex.updatedAt none

/-- The accepted-case merge each part_000 event performs (split out of
`applyEvent` for reasoning). -/
def mergeOf (e : Evt) (ex : Rec0) : Rec0 :=
  match e with
  | .loc ts => locMerge ex ts
  | .track ts rawCode => statusMergeRec ex ts rawCode
  | .shiftEvt ts rawStatus eventType subType onShift =>
    shiftMergeRec ex ts rawStatus eventType subType onShift

/-- src/unnamed/part_000:343-351 `checkWebhookAuth`, identical to the
src/server.js one. -/
def checkWebhookAuth (token : String) (header : Option String) : Bool :=
  if token = "" then true
  else if header = some token then true
  else false

end Part000

namespace Part001

/-- One status record of src/unnamed/part_001 (see the comment at its
line 32): this variant stores the online boolean directly. -/
structure Rec1 where
  online : Bool := false
  updatedAt : Option Nat := none
  lastPingAt : Option Nat := none
  lastLocationAt : Option Nat := none
  lastStatusAt : Option Nat := none
  driverStatus : Option String := none
deriving DecidableEq, Inhabited

/-- Which kind of ping `updatePing` was called for. -/
inductive PingKind where
  | location
  | statusKind
deriving DecidableEq

/-- src/unnamed/part_001:212-242 `updatePing`: refresh the kind-specific
stamp, recompute `lastPingAt` as the most recent activity, optionally set the
driver status (`ds = none` models an undefined argument), and set the stored
online flag from the hint, defaulting any ping to online. -/
def updatePing (k : PingKind) (t : Nat) (ds : Option (Option String))
    (hint : Option Bool) (r : Rec1) : Rec1 :=
  let lastLoc := if k = .location then some t else r.lastLocationAt
  let lastStat := if k = .statusKind then some t else r.lastStatusAt
  let latest := max (lastLoc.getD 0) (max (lastStat.getD 0) t)
  let ds' :=
    match ds with
    | some v => v
    | none => r.driverStatus
  let online' :=
    match hint with
    | some b => b
    | none => if r.online = false then true else r.online
  { r with
    updatedAt := some t
    lastLocationAt := lastLoc
    lastStatusAt := lastStat
    lastPingAt := some latest
    driverStatus := ds'
    online := online' }

/-- src/unnamed/part_001:245-254 `applyOfflineTimeout`: force the stored
online flag to false when there is no ping or the last ping is stale. -/
def applyOfflineTimeout (now timeoutMs : Nat) (r : Rec1) : Rec1 :=
  match r.lastPingAt with
  | none => { r with online := false }
  | some t => if now - t > timeoutMs then { r with online := false } else r

/-- Staleness of the last ping against the timeout, the condition under which
`applyOfflineTimeout` clears the stored flag. -/
def stalePing (now timeoutMs : Nat) (r : Rec1) : Bool :=
  match r.lastPingAt with
  | none => true
  | some t => decide (now - t > timeoutMs)

/-- src/unnamed/part_001:476-483, the /api/status projection of the stored
online flag: the read path returns the stored boolean directly. -/
def readOnline (r : Rec1) : Bool := r.online

/-- src/unnamed/part_001:182-192 `coercePayloadToArray`: a string body is
JSON-parsed (an empty string stays a string and is caught later), arrays and
the `data` / `payload` wrappers unwrap, and a null or empty body yields the
empty list. -/
def coercePayloadToArray {α : Type} : Body α → List α
  | .nullBody => []
  | .emptyStrBody => []
  | .arrBody xs => xs
  | .objBody w self =>
    match w.data with
    | some xs => xs
    | none =>
      match w.payload with
      | some xs => xs
      | none => [self]

end Part001

namespace Part002

/-- One status record of src/unnamed/part_002 (see the comment at its
line 32): the stored `online` is the last explicit online / offline seen. -/
structure Rec2 where
  online : Option Bool := none
  updatedAt : Option Nat := none
  lastPingAt : Option Nat := none
  lastStatusAt : Option Nat := none
  driverStatus : Option String := none
deriving DecidableEq, Inhabited

/-- The fields of a Status webhook item that src/unnamed/part_002 reads in
`inferOnlineFromStatus`, `extractDriverStatus` and the merge. -/
structure Item2 where
  online : Option Bool := none
  status : Option String := none
  Status : Option String := none
  shift : Option String := none
  state : Option String := none
  State : Option String := none
  availability : Option String := none
  Availability : Option String := none
  SubEventType : Option String := none
  subEventType : Option String := none
  driverStatus : Option String := none
  DriverStatus : Option String := none
  statusText : Option String := none
  StatusText : Option String := none
  stateText : Option String := none
  StateText : Option String := none
  driver_state : Option String := none
  DriverState : Option String := none
  currentStatus : Option String := none
  CurrentStatus : Option String := none
  activity : Option String := none
  Activity : Option String := none
  ModifiedDate : Option Nat := none
  updatedAt : Option Nat := none
  timestamp : Option Nat := none
deriving DecidableEq, Inhabited

/-- src/unnamed/part_002:112-134 `inferOnlineFromStatus`: an explicit boolean
wins, then exact vocabulary membership, then the sub-event type. -/
def inferOnlineFromStatus (o : Item2) : Option Bool :=
  match o.online with
  | some b => some b
  | none =>
    let s := strLower ((jsNullish o.status (jsNullish o.Status (jsNullish o.shift
      (jsNullish o.state (jsNullish o.State (jsNullish o.availability
        (jsNullish o.Availability none))))))).getD "")
    if (["on", "online", "active", "started", "loggedin", "open", "available",
        "true", "1", "clear"].contains s) then some true
    else if (["off", "offline", "inactive", "ended", "loggedout", "closed",
        "unavailable", "false", "0"].contains s) then some false
    else
      let sub := strLower ((jsNullish o.SubEventType (jsNullish o.subEventType none)).getD "")
      if sub = "started" then some true
      else if sub = "ended" then some false
      else none

/-- src/unnamed/part_002:137-165 `extractDriverStatus`: first candidate field
whose trimmed string is non-empty, else the empty string. -/
def extractDriverStatus (o : Item2) : String :=
  go [o.driverStatus, o.DriverStatus, o.statusText, o.StatusText, o.stateText, o.StateText,
      o.driver_state, o.DriverState, o.currentStatus, o.CurrentStatus, o.activity, o.Activity,
      o.status, o.Status, o.availability, o.Availability]
where
  go : List (Option String) → String
    | [] => ""
    | none :: rest => go rest
    | some v :: rest => if strTrim v = "" then go rest else strTrim v

/-- src/unnamed/part_002:264-271, body of the HackneyLocation handler loop:
a ping always sets the stored flag to online (`online: true`), refreshes
`lastPingAt` from the item timestamp (falling back to now) and stamps
`updatedAt` with now. -/
def hackneyMerge (ex : Rec2) (tsOpt : Option Nat) (now : Nat) : Rec2 :=
  { ex with
    online := some true
    lastPingAt := some (tsOpt.getD now)
    updatedAt := some now }

/-- src/unnamed/part_002:317-332, body of the Status handler loop: stamp
`updatedAt` / `lastStatusAt`, keep the first truthy driver status, and set
the stored online flag only when the inference resolved (possibly to
false). -/
def statusMerge (ex : Rec2) (o : Item2) (now : Nat) : Rec2 :=
  let tsOpt := jsNullish o.ModifiedDate (jsNullish o.updatedAt (jsNullish o.timestamp none))
  let ds := extractDriverStatus o
  let inferred := inferOnlineFromStatus o
  let base :=
    { ex with
      updatedAt := some (tsOpt.getD (ex.updatedAt.getD now))
      lastStatusAt := some (tsOpt.getD now)
      driverStatus := jsOrStr (some ds) (jsOrStr ex.driverStatus none) }
  match inferred with
  | some b => { base with online := some b }
  | none => base

/-- src/unnamed/part_002:174-197 `computeEffectiveOnline`: tri-state derived
online; explicit offline wins, then staleness of the last sign of life, then
explicit online, else unknown. -/
def computeEffectiveOnline (rec : Option Rec2) (now timeoutMs : Nat) : Option Bool :=
  match rec with
  | none => none
  | some r =>
    if r.online = some false then some false
    else
      match jsNullish r.lastPingAt (jsNullish r.lastStatusAt (jsNullish r.updatedAt none)) with
      | some t =>
        if now - t > timeoutMs then some false
        else if r.online = some true then some true
        else none
      | none => if r.online = some true then some true else none

/-- src/unnamed/part_002:246-251, the inlined auth gate of the
HackneyLocation handler: the request is rejected with 401 exactly when a
token is configured and the x-webhook-token header differs from it. -/
def hackneyAuthRejects (token : String) (header : Option String) : Bool :=
  if token = "" then false
  else if header = some token then false
  else true

end Part002

attribute [ext] Part000.Rec0 ServerJs.Rec

/-! Helper lemmas about the JavaScript coalescing operators. -/

theorem jsNullish_self_right {α : Type} (a b : Option α) :
    jsNullish (jsNullish a b) b = jsNullish a b := by
  cases a with
  | some x => rfl
  | none => cases b <;> rfl

theorem jsOrStr_self (b : Option String) : jsOrStr b b = b := by
  cases b with
  | none => rfl
  | some s =>
    by_cases h : s = "" <;> simp [jsOrStr, h]

theorem jsOrStr_self_right (a b : Option String) :
    jsOrStr (jsOrStr a b) b = jsOrStr a b := by
  cases a with
  | none => exact jsOrStr_self b
  | some s =>
    by_cases h : s = ""
    · simp only [jsOrStr, if_pos h]
      exact jsOrStr_self b
    · simp [jsOrStr, h]

/-- Claim C1 (amended): the src/server.js `computeOnline` follows exactly the
layered algorithm of the spec — false on explicit offline, false on a missing
ping, false on a stale ping, true otherwise (covering explicit true and
unknown-but-recent) — including the two timeout boundary derivations.  (The
part_000 variant of `computeOnline` does not follow this algorithm, see the
counterexample.) -/
theorem claim1_layered_computeOnline :
    (∀ (r : ServerJs.Rec) (now timeoutMs : Nat),
      ServerJs.computeOnline (some r) now timeoutMs = SpecModel.layeredComputeOnline r now timeoutMs)
    ∧ ServerJs.computeOnline
        (some { explicitOnline := some true, lastPingAt := some 9399000 }) 10000000 600000 = false
    ∧ ServerJs.computeOnline
        (some { explicitOnline := some true, lastPingAt := some 9401000 }) 10000000 600000 = true := by
  refine ⟨fun r now timeoutMs => ?_, by decide, by decide⟩
  rcases r with ⟨lp, u, ds, eo⟩
  simp only [ServerJs.computeOnline, SpecModel.layeredComputeOnline]
  rcases lp with _ | t
  · rfl
  · by_cases he : eo = some false
    · simp [he]
    · simp only [if_neg he]
      by_cases ht : now - t > timeoutMs
      · simp [ht]
      · simp [ht, ite_self]

/-- Claim C1 counterexample: the part_000 `computeOnline` (cited by the claim)
does not follow the layered algorithm.  A record with unknown `explicitOnline`
and a perfectly fresh ping is reported offline (the layered algorithm says
online), and a record with `explicitOnline = true` and no `lastPingAt` at all
is reported online (the layered algorithm says offline). -/
theorem claim1_counterexample :
    Part000.computeOnline (some { lastPingAt := some 1000 }) 1000 600000 = false
    ∧ SpecModel.layeredComputeOnline { lastPingAt := some 1000 } 1000 600000 = true
    ∧ Part000.computeOnline (some { explicitOnline := some true }) 1000 600000 = true
    ∧ SpecModel.layeredComputeOnline { explicitOnline := some true } 1000 600000 = false := by
  refine ⟨by decide, by decide, by decide, by decide⟩

/-- Claim C3 (amended): sticky offline holds in src/server.js — for a record
explicitly marked offline, any sequence of HackneyLocation ping merges leaves
`explicitOnline = false` and the driver status untouched, and the derived
online stays false at every clock and timeout; the per-callsign handler
`hackneyApply` computes exactly this fold.  (The part_002 variant instead
forces the stored flag to online on every ping, see the counterexample.) -/
theorem claim3_sticky_offline (ex : ServerJs.Rec) (pings : List Nat) (now timeoutMs : Nat)
    (hoff : ex.explicitOnline = some false) :
    (pings.foldl ServerJs.hackneyMerge ex).explicitOnline = some false
    ∧ (pings.foldl ServerJs.hackneyMerge ex).driverStatus = ex.driverStatus
    ∧ ServerJs.computeOnline (some (pings.foldl ServerJs.hackneyMerge ex)) now timeoutMs = false
    ∧ pings.foldl (fun acc ts => ServerJs.hackneyApply ts acc) (some ex)
        = some (pings.foldl ServerJs.hackneyMerge ex) := by
  have main : ∀ (ps : List Nat) (x : ServerJs.Rec), x.explicitOnline = some false →
      (ps.foldl ServerJs.hackneyMerge x).explicitOnline = some false
      ∧ (ps.foldl ServerJs.hackneyMerge x).driverStatus = x.driverStatus
      ∧ ps.foldl (fun acc ts => ServerJs.hackneyApply ts acc) (some x)
          = some (ps.foldl ServerJs.hackneyMerge x) := by
    intro ps
    induction ps with
    | nil => exact fun x hx => ⟨hx, rfl, rfl⟩
    | cons t ps ih =>
      intro x hx
      have hstep : (ServerJs.hackneyMerge x t).explicitOnline = some false := by
        simp [ServerJs.hackneyMerge, hx, jsNullish]
      rcases ih (ServerJs.hackneyMerge x t) hstep with ⟨h1, h2, h3⟩
      refine ⟨h1, ?_, ?_⟩
      · simpa [ServerJs.hackneyMerge] using h2
      · simpa [ServerJs.hackneyApply] using h3
  rcases main pings ex hoff with ⟨h1, h2, h3⟩
  refine ⟨h1, h2, ?_, h3⟩
  simp [ServerJs.computeOnline, h1]

/-- Claim C3 witness: a concrete explicitly-offline record stays offline
through two pings. -/
theorem claim3_witness :
    (([100, 200] : List Nat).foldl ServerJs.hackneyMerge
        { explicitOnline := some false, driverStatus := some "Off Shift" }).explicitOnline
      = some false
    ∧ (([100, 200] : List Nat).foldl ServerJs.hackneyMerge
        { explicitOnline := some false, driverStatus := some "Off Shift" }).driverStatus
      = some "Off Shift"
    ∧ ServerJs.computeOnline (some (([100, 200] : List Nat).foldl ServerJs.hackneyMerge
        { explicitOnline := some false, driverStatus := some "Off Shift" })) 200 600000 = false
    ∧ ([100, 200] : List Nat).foldl (fun acc ts => ServerJs.hackneyApply ts acc)
        (some { explicitOnline := some false, driverStatus := some "Off Shift" })
      = some (([100, 200] : List Nat).foldl ServerJs.hackneyMerge
        { explicitOnline := some false, driverStatus := some "Off Shift" }) :=
  claim3_sticky_offline
    { explicitOnline := some false, driverStatus := some "Off Shift" } [100, 200] 200 600000 rfl

/-- Claim C3 counterexample: in the part_002 variant (cited by the claim) a
single ping-only event on an explicitly-offline record makes the derived
online true — the ping handler overwrites the stored flag with online. -/
theorem claim3_counterexample :
    ({ online := some false } : Part002.Rec2).online = some false
    ∧ Part002.computeEffectiveOnline
        (some (Part002.hackneyMerge { online := some false } (some 1000) 1000)) 1000 300000
      = some true := by
  refine ⟨rfl, by decide⟩

/-- Claim C4 (amended): in src/server.js and part_000, every accepted
status-update (vehicle-tracks) merge sets `explicitOnline = true`, whatever
the prior record and whatever the raw status code.  (The part_002 variant
does not, see the counterexample.) -/
theorem claim4_status_forces_online :
    (∀ (ex : ServerJs.Rec) (ts : Nat) (rawStatus : Option String),
      (ServerJs.statusMerge ex ts rawStatus).explicitOnline = some true)
    ∧ (∀ (ex : Part000.Rec0) (ts : Nat) (rawCode : Option String),
      (Part000.statusMergeRec ex ts rawCode).explicitOnline = some true) :=
  ⟨fun _ _ _ => rfl, fun _ _ _ => rfl⟩

/-- Claim C4 counterexample: the part_002 Status handler (cited by the claim)
does not force online.  An event whose status text reads "offline" sets the
stored flag to false even over a prior explicit online, and an unrecognised
status leaves a prior explicit false in place. -/
theorem claim4_counterexample :
    (Part002.statusMerge { online := some true } { Status := some "offline" } 0).online
      = some false
    ∧ (Part002.statusMerge { online := some false } { Status := some "zzz" } 0).online
      = some false := by
  refine ⟨by decide, by decide⟩

/-- Claim C5 (amended, confirmed for part_000): the part_000 ShiftChange merge
treats `lastPingAt` exactly by the resolved explicit state — a resolved
offline clears it, a resolved online refreshes it to the event timestamp, an
unresolved event leaves it unchanged.  (The src/server.js variant instead
always stamps `lastPingAt` with the event timestamp, see the
counterexample.) -/
theorem claim5_shift_lastPing (ex : Part000.Rec0) (ts : Nat)
    (rawStatus eventType subType : Option String) (onShift : Option Bool) :
    (Part000.shiftMergeRec ex ts rawStatus eventType subType onShift).lastPingAt =
      match Part000.resolveShiftExplicit rawStatus eventType subType onShift with
      | some true => some ts
      | some false => none
      | none => ex.lastPingAt := by
  unfold Part000.shiftMergeRec
  cases h : Part000.resolveShiftExplicit rawStatus eventType subType onShift with
  | none => simp [h]; cases ex.lastPingAt <;> rfl
  | some b => cases b <;> simp [h]

/-- Claim C5 counterexample: in src/server.js (cited by the claim) a
ShiftChange event that resolves to explicit offline does not clear
`lastPingAt` — the merge sets it to the event timestamp. -/
theorem claim5_counterexample :
    ServerJs.inferOnlineFromShift (some "Ended") none none = some false
    ∧ (ServerJs.shiftMerge { lastPingAt := some 5 } 1000 (some "Ended") none none).lastPingAt
      = some 1000 := by
  refine ⟨by decide, by decide⟩

/-- Claim C6 (amended): in src/server.js derived online is never stored — the
poll read, the stream snapshot and the broadcast payload are one and the same
projection, whose online field is exactly `computeOnline` of the stored
record.  In the part_001 variant (cited by the claim) the record stores an
`online` boolean instead: the sweep step `applyOfflineTimeout` rewrites the
stored flag by the staleness rule, which is what makes the stored read path
able to disagree with the timeout recomputation (see the counterexample). -/
theorem claim6_derived_not_stored :
    (∀ (k : String) (r : ServerJs.Rec) (now timeoutMs : Nat),
      ServerJs.apiStatusEntry k r now timeoutMs = ServerJs.snapshotEntry k r now timeoutMs
      ∧ ServerJs.apiStatusEntry k r now timeoutMs = ServerJs.ssePayload k r now timeoutMs
      ∧ (ServerJs.apiStatusEntry k r now timeoutMs).online
          = ServerJs.computeOnline (some r) now timeoutMs)
    ∧ (∀ (now timeoutMs : Nat) (r : Part001.Rec1),
      (Part001.applyOfflineTimeout now timeoutMs r).online
        = (r.online && !(Part001.stalePing now timeoutMs r))) := by
  refine ⟨fun k r now timeoutMs => ⟨rfl, rfl, rfl⟩, fun now timeoutMs r => ?_⟩
  unfold Part001.applyOfflineTimeout Part001.stalePing
  cases h : r.lastPingAt with
  | none => simp
  | some t =>
    by_cases ht : now - t > timeoutMs <;> simp [ht]

/-- Claim C6 counterexample: in part_001 the stored online flag and the
timeout-derived value disagree between sweeps — the live read path reports a
record with a long-stale ping as online until `applyOfflineTimeout` mutates
the stored field. -/
theorem claim6_counterexample :
    Part001.readOnline { online := true, lastPingAt := some 0 } = true
    ∧ (Part001.applyOfflineTimeout 1000000 300000 { online := true, lastPingAt := some 0 }).online
      = false := by
  refine ⟨rfl, by decide⟩

/-- Claim C7 (amended): the part_001 normalizer maps a null and an empty body
to the empty event sequence, as the claim states; the src/server.js variant
(cited by the claim) instead yields a one-element sequence holding the empty
object, but a null body still produces zero updates there because callsign
extraction fails on the empty object. -/
theorem claim7_null_body :
    (∀ (α : Type), Part001.coercePayloadToArray (α := α) Body.nullBody = []
      ∧ Part001.coercePayloadToArray (α := α) Body.emptyStrBody = [])
    ∧ ServerJs.coercePayloadToArray (α := ServerJs.CsFields) Body.nullBody
        = [({} : ServerJs.CsFields)]
    ∧ ServerJs.hackneyUpdates Body.nullBody = 0 :=
  ⟨fun _ => ⟨rfl, rfl⟩, rfl, rfl⟩

/-- Claim C7 counterexample: the src/server.js `coercePayloadToArray` (cited
by the claim) does not yield an empty sequence on a null body. -/
theorem claim7_counterexample :
    ServerJs.coercePayloadToArray (α := ServerJs.CsFields) Body.nullBody ≠ [] := by
  decide

/-- Claim C8: with a configured webhook token, a request whose
x-webhook-token header is absent or different is answered 401 and the state
is returned untouched, before any event processing runs; the auth check of
both src/server.js and part_000 rejects it. -/
theorem claim8_auth_rejects {σ : Type} (token : String) (header : Option String)
    (process : σ → σ × Nat) (st : σ)
    (htok : token ≠ "") (hhdr : header ≠ some token) :
    ServerJs.handleWebhook token header process st = (WebhookResp.unauthorized, st)
    ∧ ServerJs.checkWebhookAuth token header = false
    ∧ Part000.checkWebhookAuth token header = false := by
  have hc : ServerJs.checkWebhookAuth token header = false := by
    simp [ServerJs.checkWebhookAuth, htok, hhdr]
  have hc0 : Part000.checkWebhookAuth token header = false := by
    simp [Part000.checkWebhookAuth, htok, hhdr]
  exact ⟨by simp [ServerJs.handleWebhook, hc], hc, hc0⟩

/-- Claim C8 witness: a concrete request with no token header against a
configured secret is rejected with 401 and the state is unchanged. -/
theorem claim8_witness :
    ServerJs.handleWebhook "secret" none (fun (n : Nat) => (n + 1, 1)) 0
      = (WebhookResp.unauthorized, 0)
    ∧ ServerJs.checkWebhookAuth "secret" none = false
    ∧ Part000.checkWebhookAuth "secret" none = false :=
  claim8_auth_rejects "secret" none (fun (n : Nat) => (n + 1, 1)) 0
    (by decide) (by decide)

/-- Claim C10: with no configured webhook token the auth check accepts every
request — whatever the header, the checks of src/server.js and part_000
return true, the inlined part_002 gate never rejects, and the handler wrapper
always runs its body and answers with the update count. -/
theorem claim10_no_token_accepts {σ : Type} (header : Option String)
    (process : σ → σ × Nat) (st : σ) :
    ServerJs.checkWebhookAuth "" header = true
    ∧ Part000.checkWebhookAuth "" header = true
    ∧ Part002.hackneyAuthRejects "" header = false
    ∧ ServerJs.handleWebhook "" header process st
        = (WebhookResp.ok (process st).2, (process st).1) := by
  refine ⟨rfl, rfl, rfl, ?_⟩
  simp [ServerJs.handleWebhook, ServerJs.checkWebhookAuth]

theorem jsNullish_none_right {α : Type} (a : Option α) : jsNullish a none = a := by
  cases a <;> rfl

theorem Part000.applyEvent_eq (e : Part000.Evt) (r : Option Part000.Rec0) :
    Part000.applyEvent e r =
      if Part000.isNewerTimestamp (some (Part000.evtTs e)) (Part000.gateRef e (r.getD {})) then
        some (Part000.mergeOf e (r.getD {}))
      else r := by
  cases e <;> rfl

theorem Part000.mergeOf_updatedAt (e : Part000.Evt) (ex : Part000.Rec0) :
    (Part000.mergeOf e ex).updatedAt = some (Part000.evtTs e) := by
  cases e with
  | loc ts => rfl
  | track ts rawCode => rfl
  | shiftEvt ts rawStatus eventType subType onShift =>
    simp only [Part000.mergeOf, Part000.shiftMergeRec, Part000.evtTs]
    cases Part000.resolveShiftExplicit rawStatus eventType subType onShift with
    | none => rfl
    | some b => cases b <;> rfl

theorem Part000.gateRef_some (e : Part000.Evt) (x : Part000.Rec0) (v : Nat)
    (hu : x.updatedAt = some v) : Part000.gateRef e x = some v := by
  cases e <;> simp [Part000.gateRef, hu, jsNullish]

theorem Part000.applyEvent_reject (e : Part000.Evt) (x : Part000.Rec0) (v : Nat)
    (hu : x.updatedAt = some v) (h : Part000.evtTs e < v) :
    Part000.applyEvent e (some x) = some x := by
  rw [Part000.applyEvent_eq]
  simp only [Option.getD_some]
  rw [Part000.gateRef_some e x v hu]
  have hfalse : Part000.isNewerTimestamp (some (Part000.evtTs e)) (some v) = false := by
    simp only [Part000.isNewerTimestamp, decide_eq_false_iff_not]
    omega
  simp [hfalse]

theorem Part000.gateRef_eq_updatedAt (e : Part000.Evt) (x : Part000.Rec0)
    (hinv : x.lastPingAt.isSome = true → x.updatedAt.isSome = true) :
    Part000.gateRef e x = x.updatedAt := by
  cases hu : x.updatedAt with
  | some v => exact Part000.gateRef_some e x v hu
  | none =>
    cases hl : x.lastPingAt with
    | none => cases e <;> simp [Part000.gateRef, hu, hl, jsNullish]
    | some t =>
      have hs := hinv (by simp [hl])
      rw [hu] at hs
      simp at hs

/-- Claim C2 (amended, confirmed for part_000): in the part_000 variant every
handler gates on `isNewerTimestamp`, so for any two events with timestamps
t1 > t2 (and any stored record satisfying the representation invariant that a
record with a ping stamp also has an update stamp, which every handler
maintains), applying t1 then t2 leaves the record exactly as after t1 alone.
(The src/server.js variant has no such gate at all, see the
counterexample.) -/
theorem claim2_monotonic_rejection (e1 e2 : Part000.Evt) (r : Option Part000.Rec0)
    (hinv : (r.getD {}).lastPingAt.isSome = true → (r.getD {}).updatedAt.isSome = true)
    (hlt : Part000.evtTs e2 < Part000.evtTs e1) :
    Part000.applyEvent e2 (Part000.applyEvent e1 r) = Part000.applyEvent e1 r := by
  have hgr := Part000.gateRef_eq_updatedAt e1 (r.getD {}) hinv
  rw [Part000.applyEvent_eq e1 r, hgr]
  cases hu : (r.getD {}).updatedAt with
  | none =>
    have htrue : Part000.isNewerTimestamp (some (Part000.evtTs e1)) none = true := rfl
    rw [htrue]
    simp only [if_true]
    exact Part000.applyEvent_reject e2 _ (Part000.evtTs e1) (Part000.mergeOf_updatedAt e1 _) hlt
  | some v =>
    by_cases hge : Part000.evtTs e1 < v
    · have hfalse : Part000.isNewerTimestamp (some (Part000.evtTs e1)) (some v) = false := by
        simp only [Part000.isNewerTimestamp, decide_eq_false_iff_not]
        omega
      rw [hfalse]
      simp only [Bool.false_eq_true, if_false]
      cases r with
      | none => simp at hu
      | some x => exact Part000.applyEvent_reject e2 x v (by simpa using hu) (lt_trans hlt hge)
    · have htrue : Part000.isNewerTimestamp (some (Part000.evtTs e1)) (some v) = true := by
        simp only [Part000.isNewerTimestamp, decide_eq_true_eq]
        omega
      rw [htrue]
      simp only [if_true]
      exact Part000.applyEvent_reject e2 _ (Part000.evtTs e1) (Part000.mergeOf_updatedAt e1 _) hlt

/-- Claim C2 witness: a concrete out-of-order location ping (2000 then 1000)
is rejected by the part_000 handler. -/
theorem claim2_witness :
    Part000.applyEvent (.loc 1000) (Part000.applyEvent (.loc 2000) none)
      = Part000.applyEvent (.loc 2000) none :=
  claim2_monotonic_rejection (.loc 2000) (.loc 1000) none (by decide) (by decide)

/-- Claim C2 counterexample: the src/server.js HackneyLocation handler (cited
by the claim) has no timestamp gate — an older ping (1000 after 2000) mutates
the record, rolling `updatedAt` and `lastPingAt` backwards. -/
theorem claim2_counterexample :
    ServerJs.hackneyApply 1000 (ServerJs.hackneyApply 2000 none)
      ≠ ServerJs.hackneyApply 2000 none := by
  decide

theorem statusMergeRec_idem (ex : Part000.Rec0) (ts : Nat) (c : Option String) :
    Part000.statusMergeRec (Part000.statusMergeRec ex ts c) ts c
      = Part000.statusMergeRec ex ts c := by
  rcases ex with ⟨lp, u, cc, ll, dd, eo⟩
  ext1
  case lastPingAt =>
    simp only [Part000.statusMergeRec]
    exact jsNullish_self_right lp (some ts)
  case updatedAt => rfl
  case driverStatusCode =>
    simp only [Part000.statusMergeRec]
    cases c with
    | none => exact jsOrStr_self_right cc none
    | some s =>
      by_cases h : s = ""
      · simp only [jsOrStr, if_pos h]
        exact jsOrStr_self_right cc none
      · simp [jsOrStr, h]
  case driverStatusLabel =>
    simp only [Part000.statusMergeRec]
    cases hL : Part000.vehicleStatusLabel c with
    | some x => simp [jsNullish]
    | none =>
      simp only [jsNullish]
      exact jsNullish_self_right ll (jsNullish c none)
  case driverStatus =>
    simp only [Part000.statusMergeRec]
    cases hL : Part000.vehicleStatusLabel c with
    | some x => simp [jsNullish]
    | none =>
      simp only [jsNullish]
      exact jsNullish_self_right ll (jsNullish c none)
  case explicitOnline => rfl

theorem shiftMerge_idem (ex : ServerJs.Rec) (ts : Nat) (raw evtTy subTy : Option String) :
    ServerJs.shiftMerge (ServerJs.shiftMerge ex ts raw evtTy subTy) ts raw evtTy subTy
      = ServerJs.shiftMerge ex ts raw evtTy subTy := by
  rcases ex with ⟨lp, u, ds, eo⟩
  ext1
  case lastPingAt => rfl
  case updatedAt => rfl
  case driverStatus =>
    simp only [ServerJs.shiftMerge]
    cases raw with
    | none => exact jsOrStr_self_right ds none
    | some s =>
      by_cases h : s = ""
      · simp only [if_pos h]
        exact jsOrStr_self_right ds none
      · simp [jsOrStr, h]
  case explicitOnline =>
    simp only [ServerJs.shiftMerge]
    cases hx : ServerJs.inferOnlineFromShift raw subTy evtTy with
    | some b => rfl
    | none => exact jsNullish_self_right eo none

/-- Claim C9: applying the same event twice with an identical timestamp
yields the same record as applying it once — proved for the two handlers the
claim cites: the part_000 Status (vehicle-tracks) handler including its
timestamp gate (an equal timestamp passes the gate, and the second merge is a
fixed point), and the src/server.js ShiftChange handler. -/
theorem claim9_idempotent :
    (∀ (ts : Nat) (rawCode : Option String) (r : Option Part000.Rec0),
      Part000.applyEvent (.track ts rawCode) (Part000.applyEvent (.track ts rawCode) r)
        = Part000.applyEvent (.track ts rawCode) r)
    ∧ (∀ (ts : Nat) (rawStatus eventType subType : Option String) (r : Option ServerJs.Rec),
      ServerJs.shiftApply ts rawStatus eventType subType
          (ServerJs.shiftApply ts rawStatus eventType subType r)
        = ServerJs.shiftApply ts rawStatus eventType subType r) := by
  constructor
  · intro ts c r
    by_cases hg :
        Part000.isNewerTimestamp (some ts) (jsNullish (r.getD {}).updatedAt none) = true
    · have h1 : Part000.applyEvent (.track ts c) r
          = some (Part000.statusMergeRec (r.getD {}) ts c) := by
        simp [Part000.applyEvent, hg]
      rw [h1]
      have hup : (Part000.statusMergeRec (r.getD {}) ts c).updatedAt = some ts := rfl
      have hg2 : Part000.isNewerTimestamp (some ts)
          (jsNullish (Part000.statusMergeRec (r.getD {}) ts c).updatedAt none) = true := by
        rw [hup]
        simp [Part000.isNewerTimestamp, jsNullish]
      have h2 : Part000.applyEvent (.track ts c) (some (Part000.statusMergeRec (r.getD {}) ts c))
          = some (Part000.statusMergeRec (Part000.statusMergeRec (r.getD {}) ts c) ts c) := by
        simp [Part000.applyEvent, hg2]
      rw [h2, statusMergeRec_idem]
    · have h1 : Part000.applyEvent (.track ts c) r = r := by
        simp [Part000.applyEvent, hg]
      rw [h1, h1]
  · intro ts rawStatus eventType subType r
    simp only [ServerJs.shiftApply, Option.getD_some]
    exact congrArg some (shiftMerge_idem (r.getD {}) ts rawStatus eventType subType)
